import Mathlib

/-
Verification development for the keyval-db repository (a small Redis-like
key/value store written in Python).

The embedding below translates the Python source into Lean definitions:

* `src/datastructures.py` — `MySortedSet` and `Value`, together with the
  relevant behaviour of `sortedcontainers.SortedSet` keyed by a mutable
  score map (the library internals that decide how re-scoring behaves).
* `src/database.py` — `Database` operations (`get`, `set`, `expire`,
  `ttl`, `delete`, `zadd`, `zrange`), the lazy-expiry checks and the
  command-log lines they emit.
* `src/utils.py` — `CommandParser`, an argparse-based per-command parser.
* `src/engine.py` — `Session.validate_cmd`, the log-replay step of
  `Session.restore`, and the file-system event traces of `rdb_serialize`,
  `Database.backup_logs` and `Session.__rdb_routine`.
* `src/server.py` — the reply behaviour of `ServerSession.serve_request`.

Modelling conventions.

* Python floats (scores, absolute expiry instants) are modelled as `Rat`.
  All concrete inputs used in the theorems are small integers, on which
  IEEE-754 double arithmetic is exact, so the idealisation does not affect
  any theorem below.
* Python dicts are modelled as association lists in insertion order
  (`List (key × value)`); `dinsert` overwrites in place like a dict
  assignment does.
* Python sets are modelled as duplicate-free lists in insertion order.
  CPython set iteration order is unspecified (hash-dependent); every
  theorem below is chosen so that its result does not depend on that
  order (singleton sets, or rebuilds over pairwise-distinct sort keys).
* Exceptions are modelled by `Option`/explicit flags at the points where
  the source raises and catches them.
-/

namespace KeyvalDB

/-! ### Python-level primitives -/

/-- Digits of a numeral to a natural number. -/
def digitsToNat (cs : List Char) : Nat :=
  cs.foldl (fun a c => a * 10 + (c.toNat - 48)) 0

/-- Python `int(s)` on the plain decimal forms used by this program
(optional leading minus sign, then digits).  Leading `+`, whitespace,
underscores and other Python `int` niceties are not used by any input
modelled here. -/
def pyIntParse (s : String) : Option Int :=
  match s.data with
  | [] => none
  | c :: rest =>
    if c = '-' then
      if rest ≠ [] ∧ rest.all (·.isDigit) then some (-(digitsToNat rest : Int)) else none
    else
      if (c :: rest).all (·.isDigit) then some ((digitsToNat (c :: rest) : Int)) else none

/-- Split a character list at every occurrence of `sep` (the behaviour
of Python `str.split(sep)`: `n` separators produce `n + 1` pieces,
empties included). -/
def splitOnChar (sep : Char) : List Char → List (List Char)
  | [] => [[]]
  | c :: rest =>
    let r := splitOnChar sep rest
    if c = sep then [] :: r
    else
      match r with
      | [] => [[c]]
      | t :: ts => (c :: t) :: ts

def strSplitOnChar (sep : Char) (s : String) : List String :=
  (splitOnChar sep s.data).map String.mk

/-- Does the string start with the given character? -/
def headIs (c : Char) (s : String) : Bool :=
  match s.data with
  | d :: _ => d = c
  | [] => false

/-- Python `float(s)` on plain decimal forms: optional sign, then either
`digits`, `digits.digits`, `digits.` or `.digits`.  Exponents, `inf` and
`nan` are accepted by Python but are not used by any input modelled
here. -/
def pyFloatCore (t : String) : Option Rat :=
  match strSplitOnChar '.' t with
  | [a] =>
    if a.length > 0 ∧ a.data.all (·.isDigit)
    then some ((digitsToNat a.data : Int) : Rat)
    else none
  | [a, b] =>
    if (a.length > 0 ∨ b.length > 0) ∧ a.data.all (·.isDigit) ∧ b.data.all (·.isDigit)
    then some ((digitsToNat a.data : Rat) + (digitsToNat b.data : Rat) / ((10 : Rat) ^ b.length))
    else none
  | _ => none

def pyFloatParse (s : String) : Option Rat :=
  match s.data with
  | '-' :: rest => (pyFloatCore (String.mk rest)).map (fun q => -q)
  | '+' :: rest => pyFloatCore (String.mk rest)
  | _ => pyFloatCore s

/-- Split on single spaces, dropping empty pieces (the behaviour of
Python `str.split()` on the space-separated strings this program
produces). -/
def splitWs (s : String) : List String :=
  (strSplitOnChar ' ' s).filter (fun t => t ≠ "")

/-- `shlex.split(cmd, comments=True)` restricted to the quote-free,
comment-free inputs exercised here: whitespace tokenisation, truncated at
a `#` comment token. -/
def shlexSplit (s : String) : List String :=
  (splitWs s).takeWhile (fun t => ¬ headIs '#' t)

/-- Clamp one Python slice endpoint for a list of length `n`. -/
def pyIdx (n : Nat) (i : Int) : Nat :=
  if i < 0 then (max (i + n) 0).toNat else min i.toNat n

/-- Python list slicing `l[start:stop]` (step 1), including negative
index handling. -/
def pySlice {α : Type} (l : List α) (start stop : Int) : List α :=
  let a := pyIdx l.length start
  let b := pyIdx l.length stop
  (l.drop a).take (b - a)

/-- Python truthiness of an optional int (`None` and `0` are falsy). -/
def truthyOptInt : Option Int → Bool
  | none => false
  | some n => n ≠ 0

/-- Python truthiness of an optional float (`None` and `0.0` are falsy). -/
def truthyOptRat : Option Rat → Bool
  | none => false
  | some q => q ≠ 0

/-- Association-list lookup mirroring a Python dict read. -/
def dlookup {β : Type} (l : List (String × β)) (k : String) : Option β :=
  match l with
  | [] => none
  | p :: rest => if p.1 = k then some p.2 else dlookup rest k

/-- Association-list write mirroring Python dict assignment: overwrite in
place if the key exists, append otherwise. -/
def dinsert {β : Type} (l : List (String × β)) (k : String) (v : β) : List (String × β) :=
  match l with
  | [] => [(k, v)]
  | p :: rest => if p.1 = k then (k, v) :: rest else p :: dinsert rest k v

/-- Association-list delete mirroring Python `del d[k]`. -/
def derase {β : Type} (l : List (String × β)) (k : String) : List (String × β) :=
  l.filter (fun p => p.1 ≠ k)

/-! ### The relevant behaviour of `sortedcontainers`

`MySortedSet` stores its members in `SortedSet(key=self.sortedset_key)`
where the key function reads the *mutable* `scoremap` dict.  The library
keeps, for every element, the key value captured at insertion time
(`SortedKeyList._keys`); membership of the backing set and position in
the key list can therefore fall out of sync when a score changes.  The
model below reproduces exactly the code paths this program hits:

* `SortedKeyList` is a list of `(stored key, value)` pairs, ascending in
  the stored key, with `bisect_right` (insert-after-equals) insertion;
* `SortedKeyList.remove(v)` recomputes `key(v)` and only finds `v` among
  entries whose *stored* key equals that current key, raising
  `ValueError` otherwise;
* `SortedSet.remove(v)` removes from the backing set first (`KeyError`
  if absent, before any mutation) and only then from the key list, so a
  `ValueError` from the list leaves the set already mutated;
* `SortedSet.update(vs)` deduplicates `vs`, and either rebuilds the key
  list from the whole backing set (re-sorting by the *current* keys) when
  `4 * len(values) > len(set)`, or falls back to per-element `add`
  (which skips values already in the backing set). -/

/-- `SortedKeyList.add`: insert `(k, v)` after all entries whose stored
key is `≤ k` (the `bisect_right` position). -/
def addEntry : List (Rat × String) → Rat → String → List (Rat × String)
  | [], k, v => [(k, v)]
  | e :: rest, k, v =>
    if k < e.1 then (k, v) :: e :: rest
    else e :: addEntry rest k v

/-- `SortedKeyList.remove`: delete the first entry equal to
`(current key, v)`; `none` models the `ValueError` raised when no entry
carries the value under its current key (e.g. because the stored key is
stale). -/
def removeEntry : List (Rat × String) → Rat → String → Option (List (Rat × String))
  | [], _, _ => none
  | e :: rest, k, v =>
    if e.1 = k ∧ e.2 = v then some rest
    else (removeEntry rest k v).map (fun l => e :: l)

/-- `sorted(vs, key=keyOf)` as used by `SortedKeyList.update` on an empty
list: a stable sort by current key, realised by repeated
insert-after-equals. -/
def sklFromValues (keyOf : String → Rat) (vs : List String) : List (Rat × String) :=
  vs.foldl (fun acc v => addEntry acc (keyOf v) v) []

/-- `sortedcontainers.SortedSet` state: the backing Python set (modelled
in insertion order) and the `SortedKeyList` of `(stored key, value)`
entries. -/
structure PySortedSet where
  setElems : List String
  listEntries : List (Rat × String)
deriving DecidableEq, Repr

def PySortedSet.mtSet : PySortedSet := ⟨[], []⟩

/-- `SortedSet.add(v)`: a no-op when `v` is already in the backing set,
otherwise insert into both the set and the key list (keyed by the
current key of `v`). -/
def PySortedSet.add (keyOf : String → Rat) (s : PySortedSet) (v : String) : PySortedSet :=
  if s.setElems.contains v then s
  else ⟨s.setElems ++ [v], addEntry s.listEntries (keyOf v) v⟩

/-- `SortedSet.remove(v)` with both possible exceptions swallowed by the
caller (`MySortedSet.update` / `incr_update` wrap each call in
`try ... except KeyError ... except ValueError`): absent from the set →
`KeyError`, no mutation; present in the set but not found in the key
list under its current key → set mutated, list untouched, `ValueError`
swallowed. -/
def PySortedSet.removeSwallow (keyOf : String → Rat) (s : PySortedSet) (v : String) : PySortedSet :=
  if s.setElems.contains v then
    let se := s.setElems.filter (fun x => x ≠ v)
    match removeEntry s.listEntries (keyOf v) v with
    | some l => ⟨se, l⟩
    | none => ⟨se, s.listEntries⟩
  else s

/-- `SortedSet.update(vs)`: dedupe `vs` (Python builds `set(vs)`; the
model keeps first-occurrence order), then either rebuild the key list
from the whole backing set sorted by current keys, or add one by one. -/
def PySortedSet.updateVals (keyOf : String → Rat) (s : PySortedSet) (vs : List String) : PySortedSet :=
  let values := vs.eraseDups
  if 4 * values.length > s.setElems.length then
    let se := s.setElems ++ values.filter (fun v => ¬ s.setElems.contains v)
    ⟨se, sklFromValues keyOf se⟩
  else
    values.foldl (fun acc v => PySortedSet.add keyOf acc v) s

/-! ### `MySortedSet` (src/datastructures.py) -/

/-- The sorted-set value: `scoremap` is the member → score dict,
`members` the `SortedSet` keyed by `sortedset_key`. -/
structure MySortedSet where
  scoremap : List (String × Rat)
  members : PySortedSet
deriving DecidableEq, Repr

/-- `sortedset_key(x) = scoremap[x]`.  The Python version raises
`KeyError` on a missing member; in every reachable call the member has
already been written to `scoremap` (scores are written before the
member-list operations and never deleted), so a total function with a
default is faithful on all reachable states. -/
def sortedset_key (sm : List (String × Rat)) (m : String) : Rat :=
  (dlookup sm m).getD 0

def MySortedSet.mtZSet : MySortedSet := ⟨[], PySortedSet.mtSet⟩

/-- The member sequence in iteration order (the `SortedKeyList` values). -/
def MySortedSet.memberSeq (z : MySortedSet) : List String :=
  z.members.listEntries.map (fun e => e.2)

/-- One step of the first loop of `MySortedSet.update`: the
exists/changed count is checked against the score map *before* the score
is written, within the same iteration. -/
def updateCountStep (chFlag : Bool) (acc : List (String × Rat) × Int) (p : Rat × String) :
    List (String × Rat) × Int :=
  let cnt :=
    match dlookup acc.1 p.2 with
    | some old => if chFlag then (if old = p.1 then acc.2 + 1 else acc.2) else acc.2 + 1
    | none => acc.2
  (dinsert acc.1 p.2 p.1, cnt)

/-- `MySortedSet.update(iterable, ch_flag)`: write all scores (counting
pre-existing members), then try to remove every touched member from the
ordered set (exceptions swallowed), then `SortedSet.update` with the
member names.  Returns the updated structure and
`len(members) - exist_count`.  (Python raises on an empty iterable via
`zip(*iterable)`; the parser guarantees at least one pair.) -/
def MySortedSet.update (z : MySortedSet) (pairs : List (Rat × String)) (chFlag : Bool) :
    MySortedSet × Int :=
  let smCnt := pairs.foldl (updateCountStep chFlag) (z.scoremap, 0)
  let sm := smCnt.1
  let keyOf := sortedset_key sm
  let memNames := pairs.map (fun p => p.2)
  let ms1 := memNames.foldl (fun acc m => PySortedSet.removeSwallow keyOf acc m) z.members
  let ms2 := PySortedSet.updateVals keyOf ms1 memNames
  (⟨sm, ms2⟩, (memNames.length : Int) - smCnt.2)

/-- `MySortedSet.incr_update(iterable)`: add each delta to the member
score (inserting absent members at the delta), run the same
remove/update dance on the ordered set, and return the score now mapped
to the *last* pair's member. -/
def MySortedSet.incr_update (z : MySortedSet) (pairs : List (Rat × String)) :
    MySortedSet × Rat :=
  let sm := pairs.foldl
    (fun acc p =>
      match dlookup acc p.2 with
      | some old => dinsert acc p.2 (old + p.1)
      | none => dinsert acc p.2 p.1)
    z.scoremap
  let keyOf := sortedset_key sm
  let memNames := pairs.map (fun p => p.2)
  let ms1 := memNames.foldl (fun acc m => PySortedSet.removeSwallow keyOf acc m) z.members
  let ms2 := PySortedSet.updateVals keyOf ms1 memNames
  (⟨sm, ms2⟩, ((memNames.getLast?).bind (dlookup sm)).getD 0)

/-- Output shape of `MySortedSet.range`. -/
inductive RangeOut
  | plain (ms : List String)
  | withScores (ps : List (String × Rat))
deriving DecidableEq, Repr

/-- `MySortedSet.range(start, end, withscores)`: a Python slice of the
member sequence, optionally zipped with the current scores. -/
def MySortedSet.range (z : MySortedSet) (start stop : Int) (withscores : Bool) : RangeOut :=
  let rm := pySlice z.memberSeq start stop
  if withscores then .withScores (rm.map (fun m => (m, sortedset_key z.scoremap m)))
  else .plain rm

/-- The ordering the specification demands of the member sequence:
ascending score, ties broken lexicographically by member ((score,
member) strictly increasing between neighbours). -/
def orderedByScoreMember (sm : List (String × Rat)) : List String → Bool
  | [] => true
  | [_] => true
  | m1 :: m2 :: rest =>
    let s1 := sortedset_key sm m1
    let s2 := sortedset_key sm m2
    (decide (s1 < s2) || (decide (s1 = s2) && decide (m1 < m2))) &&
      orderedByScoreMember sm (m2 :: rest)

/-! ### `Value` cells and `Database` (src/database.py) -/

/-- The two value variants a cell can hold. -/
inductive Val
  | str (s : String)
  | zset (z : MySortedSet)
deriving DecidableEq, Repr

/-- `Value`: the value object plus the optional absolute expiry
(`timeout = time.time() + age`). -/
structure Cell where
  val : Val
  timeout : Option Rat
deriving DecidableEq, Repr

/-- The in-memory key → cell dict of one dataset. -/
structure DB where
  data : List (String × Cell)
deriving DecidableEq, Repr

def DB.mtDB : DB := ⟨[]⟩

/-- The sorted set stored at `key`, when the key is present with the
sorted-set variant. -/
def DB.zsetAt (db : DB) (key : String) : Option MySortedSet :=
  match dlookup db.data key with
  | some c =>
    match c.val with
    | Val.zset z => some z
    | _ => none
  | none => none

/-- The heterogeneous Python values the database methods return (the
session forwards them, and the server stringifies them for the wire). -/
inductive Reply
  | pyStr (s : String)
  | pyInt (n : Int)
  | pyRat (q : Rat)
  | pyVal (v : Val)
  | pyList (ms : List String)
  | pyPairs (ps : List (String × Rat))
  | pyNone
deriving DecidableEq, Repr

/-- Whether a reply is the typed error string the store produces
(`ERR: Value at <key> is not a MySortedSet object.` and kin). -/
def Reply.isTypedError : Reply → Bool
  | .pyStr s =>
    match s.data with
    | 'E' :: 'R' :: 'R' :: _ => true
    | _ => false
  | _ => false

/-- Result of one database operation: the new state, the returned value,
and the command-log messages appended (in order) during the call. -/
structure OpResult where
  db : DB
  reply : Reply
  log : List String
deriving Repr

/-- Python `f-string` rendering of the float timeout used in log lines:
`None` for no expiry, else the float.  (Only the integral and `None`
cases occur in the theorems; Python renders an integral float as
`<n>.0`.) -/
def timeoutRepr : Option Rat → String
  | none => "None"
  | some q => if q.den = 1 then toString q.num ++ ".0" else toString q.num ++ "/" ++ toString q.den

namespace Database

/-- `Database.__check_life(key)` — only called with `key` present.  If
the cell has a truthy timeout in the past, a `DEL <key>` line is logged
and the key deleted; returns the surviving database, the liveness flag
and the log lines written. -/
def check_life (db : DB) (now : Rat) (key : String) : DB × Bool × List String :=
  match dlookup db.data key with
  | none => (db, true, [])
  | some cell =>
    if truthyOptRat cell.timeout ∧ now > cell.timeout.getD 0 then
      (⟨derase db.data key⟩, false, ["DEL " ++ key])
    else
      (db, true, [])

/-- `Database.__check_active(key)`: present and alive. -/
def check_active (db : DB) (now : Rat) (key : String) : DB × Bool × List String :=
  if (dlookup db.data key).isSome then check_life db now key
  else (db, false, [])

/-- `Database.get(key)`: the raw cell value when active (no variant
check in the source), `'(nil)'` otherwise. -/
def get (db : DB) (now : Rat) (key : String) : OpResult :=
  let r := check_active db now key
  if r.2.1 then
    match dlookup r.1.data key with
    | some c => ⟨r.1, .pyVal c.val, r.2.2⟩
    | none => ⟨r.1, .pyStr "(nil)", r.2.2⟩
  else ⟨r.1, .pyStr "(nil)", r.2.2⟩

/-- The parsed optional arguments of `SET`. -/
structure SetArgs where
  EX : Option Int
  PX : Option Int
  NX : Bool
  XX : Bool
  KEEPTTL : Bool
deriving DecidableEq, Repr

/-- `Database.set(key, val, args)`: liveness first (lazy expiry), then
the `-NX`/`-XX` gates, then the timeout computation — note the Python
truthiness tests `if args.EX:` / `elif args.PX:` treat a present but
zero `-EX`/`-PX` like an absent one — then one `SET` log line and the
cell write. -/
def set (db : DB) (now : Rat) (key : String) (val : String) (args : SetArgs) : OpResult :=
  let r := check_active db now key
  let db1 := r.1
  let active := r.2.1
  let lg := r.2.2
  if args.NX && active then ⟨db1, .pyStr "(nil)", lg⟩
  else if args.XX && !active then ⟨db1, .pyStr "(nil)", lg⟩
  else
    let timeout : Option Rat :=
      if args.KEEPTTL && active then (dlookup db1.data key).bind (fun c => c.timeout)
      else if truthyOptInt args.EX then some (now + ((args.EX.getD 0 : Int) : Rat))
      else if truthyOptInt args.PX then some (now + (1 : Rat) / 1000 * ((args.PX.getD 0 : Int) : Rat))
      else none
    ⟨⟨dinsert db1.data key ⟨Val.str val, timeout⟩⟩,
      .pyStr "OK",
      lg ++ ["SET " ++ key ++ " " ++ val ++ " " ++ timeoutRepr timeout]⟩

/-- `Database.expire(key, age)`: on a live key, `int(age)` (which raises
on a non-integer string — surfaced by the session as an error reply
whose exact text is not modelled), an `EXPIRE` log line carrying the
*absolute* float timeout, and an in-place timeout write. -/
def expire (db : DB) (now : Rat) (key : String) (age : String) : OpResult :=
  let r := check_active db now key
  let db1 := r.1
  if r.2.1 then
    match pyIntParse age with
    | some n =>
      let t := now + (n : Rat)
      match dlookup db1.data key with
      | some c =>
        ⟨⟨dinsert db1.data key ⟨c.val, some t⟩⟩, .pyInt 1,
          r.2.2 ++ ["EXPIRE " ++ key ++ " " ++ timeoutRepr (some t)]⟩
      | none => ⟨db1, .pyInt 1, r.2.2⟩
    | none => ⟨db1, .pyStr "Error: invalid int literal", r.2.2⟩
  else ⟨db1, .pyInt 0, r.2.2⟩

/-- Python `int()` truncation of a float toward zero. -/
def pyTrunc (q : Rat) : Int :=
  if q < 0 then -((-q).floor) else q.floor

/-- `Database.ttl(key)`: remaining whole seconds, `'-1'` (a string) when
live without a truthy timeout, `'-2'` (a string) when not live. -/
def ttl (db : DB) (now : Rat) (key : String) : OpResult :=
  let r := check_active db now key
  if r.2.1 then
    match dlookup r.1.data key with
    | some c =>
      if truthyOptRat c.timeout then ⟨r.1, .pyInt (pyTrunc (c.timeout.getD 0 - now)), r.2.2⟩
      else ⟨r.1, .pyStr "-1", r.2.2⟩
    | none => ⟨r.1, .pyStr "-2", r.2.2⟩
  else ⟨r.1, .pyStr "-2", r.2.2⟩

/-- `Database.delete(key)`: the `DEL` line is logged *before* the
deletion is attempted, and a `KeyError` from an absent key is swallowed
— so an absent key still appends a log line while mutating nothing. -/
def delete (db : DB) (key : String) : OpResult :=
  ⟨⟨derase db.data key⟩, .pyNone, ["DEL " ++ key]⟩

/-- The parsed arguments of `ZADD` after `__fetch_pair_list`. -/
structure ZaddArgs where
  NX : Bool
  XX : Bool
  CH : Bool
  INCR : Bool
  score_member : List (Rat × String)
deriving DecidableEq, Repr

/-- `Database.zadd(key, args)`: liveness, variant check, `-NX`/`-XX`
gates, then `incr_update` (live + `-INCR`), `update(pairs, CH)` (live),
or a fresh sorted-set cell with `update(pairs)` (not live).  No log line
is ever written by this method. -/
def zadd (db : DB) (now : Rat) (key : String) (args : ZaddArgs) : OpResult :=
  let r := check_active db now key
  let db1 := r.1
  let active := r.2.1
  let lg := r.2.2
  if active && (db1.zsetAt key).isNone then
    ⟨db1, .pyStr ("ERR: Value at " ++ key ++ " is not a MySortedSet object."), lg⟩
  else if args.NX && active then ⟨db1, .pyStr "(nil)", lg⟩
  else if args.XX && !active then ⟨db1, .pyStr "(nil)", lg⟩
  else if active then
    match dlookup db1.data key with
    | some c =>
      match c.val with
      | Val.zset z =>
        if args.INCR then
          let zr := z.incr_update args.score_member
          ⟨⟨dinsert db1.data key ⟨Val.zset zr.1, c.timeout⟩⟩, .pyRat zr.2, lg⟩
        else
          let zr := z.update args.score_member args.CH
          ⟨⟨dinsert db1.data key ⟨Val.zset zr.1, c.timeout⟩⟩, .pyInt zr.2, lg⟩
      | _ => ⟨db1, .pyNone, lg⟩
    | none => ⟨db1, .pyNone, lg⟩
  else
    let zr := MySortedSet.mtZSet.update args.score_member false
    ⟨⟨dinsert db1.data key ⟨Val.zset zr.1, none⟩⟩, .pyInt zr.2, lg⟩

/-- The parsed arguments of `ZRANGE`. -/
structure ZrangeArgs where
  start : Int
  stop : Int
  WITHSCORES : Bool
deriving DecidableEq, Repr

/-- `Database.zrange(key, args)`: `[]` when not live (before any variant
check), the typed error on a non-sorted-set value, else the slice. -/
def zrange (db : DB) (now : Rat) (key : String) (args : ZrangeArgs) : OpResult :=
  let r := check_active db now key
  if !r.2.1 then ⟨r.1, .pyList [], r.2.2⟩
  else
    match r.1.zsetAt key with
    | some z =>
      match z.range args.start args.stop args.WITHSCORES with
      | .plain ms => ⟨r.1, .pyList ms, r.2.2⟩
      | .withScores ps => ⟨r.1, .pyPairs ps, r.2.2⟩
    | none => ⟨r.1, .pyStr ("ERR: Value at " ++ key ++ " is not a MySortedSet object."), r.2.2⟩

end Database

/-! ### `CommandParser` (src/utils.py)

The parser subclasses `argparse.ArgumentParser` and overrides `error` to
raise a plain `Exception` instead of exiting; `parse` catches every
exception and returns `None`.  The model reproduces argparse behaviour
on the grammars of this program:

* a token is an option only if it starts with `-`, is longer than `-`,
  and does not look like a negative number (none of the seven parsers
  has an option string that looks like a negative number, so argparse
  treats `-1` or `-2.5` as positionals);
* option names are matched exactly (argparse prefix abbreviation is not
  exercised by any input modelled here);
* a valued option consumes the next token, converted with `type=int`;
* unknown options, missing option values, bad conversions, missing or
  surplus positionals and violated mutually-exclusive groups are parse
  errors (argparse calls `error`, so `parse` returns `None`);
* argparse matches positionals chunk-wise between options; the linear
  collection below agrees with it on every token sequence in which the
  trailing `nargs` positionals are not split by a later option, which
  covers all inputs appearing in the theorems. -/

namespace CommandParser

/-- Does a token match argparse's `_negative_number_matcher`
(`^-\d+$|^-\d*\.\d+$`)? -/
def looksNegNum (t : String) : Bool :=
  match t.data with
  | '-' :: rest =>
    (rest ≠ [] && rest.all (·.isDigit)) ||
      (match splitOnChar '.' rest with
       | [a, b] => a.all (·.isDigit) && b ≠ [] && b.all (·.isDigit)
       | _ => false)
  | _ => false

/-- Is a token treated as an option string? -/
def isOptToken (t : String) : Bool :=
  headIs '-' t && t.length > 1 && !looksNegNum t

/-- One declared option: its string and whether it takes an (int)
value. -/
structure OptSpec where
  name : String
  takesValue : Bool
deriving DecidableEq, Repr

/-- Raw scan result: positionals in order, `store_true` flags seen, and
valued options seen (each with its converted int). -/
structure RawArgs where
  positionals : List String
  flags : List String
  valued : List (String × Int)
deriving DecidableEq, Repr

/-- Token scan: classify each token against the declared options;
`none` models an argparse error. -/
def scanTokens (opts : List OptSpec) : List String → Option RawArgs
  | [] => some ⟨[], [], []⟩
  | t :: rest =>
    if isOptToken t then
      match opts.find? (fun o => o.name = t) with
      | none => none
      | some o =>
        if o.takesValue then
          match rest with
          | [] => none
          | v :: rest2 =>
            match pyIntParse v with
            | none => none
            | some n => (scanTokens opts rest2).map (fun r => ⟨r.positionals, r.flags, (t, n) :: r.valued⟩)
        else
          (scanTokens opts rest).map (fun r => ⟨r.positionals, t :: r.flags, r.valued⟩)
    else
      (scanTokens opts rest).map (fun r => ⟨t :: r.positionals, r.flags, r.valued⟩)

def RawArgs.flag (r : RawArgs) (n : String) : Bool := r.flags.contains n

def RawArgs.valOf (r : RawArgs) (n : String) : Option Int :=
  (r.valued.find? (fun p => p.1 = n)).map (fun p => p.2)

/-- `CommandParser.__fetch_pair_list`: an odd-length tail or a
non-float score is a parse error; otherwise `(float(score), member)`
pairs. -/
def fetch_pair_list : List String → Option (List (Rat × String))
  | [] => some []
  | [_] => none
  | s :: m :: rest =>
    match pyFloatParse s with
    | none => none
    | some q => (fetch_pair_list rest).map (fun ps => (q, m) :: ps)

/-- The typed result of parsing one command line. -/
inductive Parsed
  | select (db_name : String)
  | deselect
  | get (key : String)
  | set (key value : String) (args : Database.SetArgs)
  | expire (key seconds : String)
  | ttl (key : String)
  | del (keys : List String)
  | zadd (key : String) (args : Database.ZaddArgs)
  | zrank (key member : String)
  | zrange (key : String) (args : Database.ZrangeArgs)
  | exit
deriving DecidableEq, Repr

/-- `CommandParser(command).parse(cmd_args)`: the per-command grammars of
`src/utils.py`; `none` is the recovered-error path (parser raised, the
`except` in `parse` returned `None`). -/
def parse (prog : String) (toks : List String) : Option Parsed :=
  if prog = "SELECT" then
    (scanTokens [] toks).bind (fun r =>
      match r.positionals with
      | [n] => some (.select n)
      | _ => none)
  else if prog = "DESELECT" then
    (scanTokens [] toks).bind (fun r =>
      match r.positionals with
      | [] => some .deselect
      | _ => none)
  else if prog = "GET" then
    (scanTokens [] toks).bind (fun r =>
      match r.positionals with
      | [k] => some (.get k)
      | _ => none)
  else if prog = "SET" then
    (scanTokens [⟨"-EX", true⟩, ⟨"-PX", true⟩, ⟨"-NX", false⟩, ⟨"-XX", false⟩,
        ⟨"-KEEPTTL", false⟩] toks).bind (fun r =>
      match r.positionals with
      | [k, v] =>
        let ex := r.valOf "-EX"
        let px := r.valOf "-PX"
        let nx := r.flag "-NX"
        let xx := r.flag "-XX"
        if ex.isSome && px.isSome then none
        else if nx && xx then none
        else some (.set k v ⟨ex, px, nx, xx, r.flag "-KEEPTTL"⟩)
      | _ => none)
  else if prog = "EXPIRE" then
    (scanTokens [] toks).bind (fun r =>
      match r.positionals with
      | [k, s] => some (.expire k s)
      | _ => none)
  else if prog = "TTL" then
    (scanTokens [] toks).bind (fun r =>
      match r.positionals with
      | [k] => some (.ttl k)
      | _ => none)
  else if prog = "DEL" then
    (scanTokens [] toks).bind (fun r =>
      match r.positionals with
      | [] => none
      | ks => some (.del ks))
  else if prog = "ZADD" then
    (scanTokens [⟨"-NX", false⟩, ⟨"-XX", false⟩, ⟨"-CH", false⟩, ⟨"-INCR", false⟩] toks).bind
      (fun r =>
        match r.positionals with
        | [] => none
        | [_] => none
        | k :: ps =>
          let nx := r.flag "-NX"
          let xx := r.flag "-XX"
          if nx && xx then none
          else (fetch_pair_list ps).map (fun pairs =>
            .zadd k ⟨nx, xx, r.flag "-CH", r.flag "-INCR", pairs⟩))
  else if prog = "ZRANK" then
    (scanTokens [] toks).bind (fun r =>
      match r.positionals with
      | [k, m] => some (.zrank k m)
      | _ => none)
  else if prog = "ZRANGE" then
    (scanTokens [⟨"-WITHSCORES", false⟩] toks).bind (fun r =>
      match r.positionals with
      | [k, a, b] =>
        match pyIntParse a, pyIntParse b with
        | some x, some y => some (.zrange k ⟨x, y, r.flag "-WITHSCORES"⟩)
        | _, _ => none
      | _ => none)
  else if prog = "EXIT" then
    (scanTokens [] toks).bind (fun r =>
      match r.positionals with
      | [] => some .exit
      | _ => none)
  else none

end CommandParser

/-! ### Session validation and reply plumbing (src/engine.py, src/server.py) -/

/-- The engine session's known commands (a Python set; insertion order
used for the help join, whose exact order is hash-dependent and not
relied on by any theorem). -/
def knownCommandsEngine : List String :=
  ["SELECT", "DESELECT", "GET", "SET", "EXPIRE", "TTL", "DEL", "ZADD", "ZRANK", "ZRANGE", "EXIT"]

/-- The `main.py` session used by the zmq server: same set without
`EXIT`. -/
def knownCommandsMain : List String :=
  ["SELECT", "DESELECT", "GET", "SET", "EXPIRE", "TTL", "DEL", "ZADD", "ZRANK", "ZRANGE"]

def unknownMsgEngine : String :=
  "Unrecognized Command\nThe known commands are:\n" ++ String.intercalate " " knownCommandsEngine

/-- Outcome of `engine.Session.validate_cmd`: an accepted command, a
rejection carrying a message returned to the caller (unknown command /
no dataset selected), or a rejection with no message (parser failure:
the tuple `(None, None)`; the parser printed its message to stdout). -/
inductive Validated
  | ok (cmd : String) (p : CommandParser.Parsed)
  | rejected (msg : Option String)
deriving DecidableEq, Repr

/-- `engine.Session.validate_cmd(cmd)`; `curLoaded` is whether
`self.__cur_database` is set. -/
def validate_cmd (curLoaded : Bool) (line : String) : Validated :=
  match shlexSplit line with
  | [] => .rejected (some unknownMsgEngine)
  | c :: rest =>
    if ¬ knownCommandsEngine.contains c then .rejected (some unknownMsgEngine)
    else if ¬ curLoaded ∧ c ≠ "EXIT" ∧ c ≠ "SELECT" then
      .rejected (some "Select a database first before running operations.")
    else
      match CommandParser.parse c rest with
      | some p => .ok c p
      | none => .rejected none

/-- `main.Session.validate_cmd` (the variant the zmq server uses): every
rejection prints to the server's stdout and returns `(None, None)`, so
the caller sees no message at all. -/
def validate_cmd_main (curLoaded : Bool) (line : String) : Option CommandParser.Parsed :=
  match shlexSplit line with
  | [] => none
  | c :: rest =>
    if ¬ knownCommandsMain.contains c then none
    else if ¬ curLoaded ∧ c ≠ "SELECT" then none
    else CommandParser.parse c rest

/-- One iteration of `ServerSession.serve_request` on a received
message, abstracted over the dispatch function: when validation rejects,
the loop `continue`s without sending anything, so the client receives no
reply (`none`); otherwise the dispatched reply is sent. -/
def serve_request_step (process : CommandParser.Parsed → Reply) (curLoaded : Bool)
    (msg : String) : Option Reply :=
  match validate_cmd_main curLoaded msg with
  | none => none
  | some p => some (process p)

/-- The log line `logging.Formatter('%(asctime)s %(name)s %(message)s')`
writes: the asctime field itself contains one space
(`2022-10-14 10:00:00,123`), so the prefix is three space-separated
fields. -/
def log_line (asctime name msg : String) : String :=
  asctime ++ " " ++ name ++ " " ++ msg

/-- The per-line replay step of `engine.Session.restore`: strip the
three-field prefix, re-join, and run `validate_cmd` (a dataset is
selected during restore).  Lines whose remainder does not parse are
silently skipped (`if validated_cmd is None: continue`). -/
def restore_line (line : String) : Validated :=
  validate_cmd true (String.intercalate " " ((splitWs line).drop 3))

/-! ### File-system traces of the durability routines (src/engine.py)

`rdb_serialize`, `Database.backup_logs` and `Session.__rdb_routine` are
straight-line I/O code; they are embedded as the sequences of
file-system and process events they perform, in program order. -/

inductive FsEvent
  | closeHandler
  | openHandler (p : String)
  | copyFile (src dst : String)
  | removeFile (p : String)
  | renameFile (src dst : String)
  | writeFile (p : String)
  | acquireLock
  | releaseLock
  | spawnChild
  | setLastSave
deriving DecidableEq, Repr

def FsEvent.isRename : FsEvent → Bool
  | .renameFile _ _ => true
  | _ => false

/-- `rdb_serialize(cur_database, dump_path, lock)`: take the snapshot
lock, pickle into `<dump_path>.new`, `shutil.copy` the temp file over
the target (a byte-wise copy into the live file, not a rename), remove
the temp file, release the lock. -/
def rdb_serialize_trace (dumpPath : String) : List FsEvent :=
  [.acquireLock, .writeFile (dumpPath ++ ".new"),
   .copyFile (dumpPath ++ ".new") dumpPath,
   .removeFile (dumpPath ++ ".new"), .releaseLock]

/-- `Database.backup_logs()` with an installed file handler: close and
detach the handler, copy the log to `<log_path>.bkp`, remove the log,
open a fresh handler on the log path. -/
def backup_logs_trace (logPath : String) : List FsEvent :=
  [.closeHandler, .copyFile logPath (logPath ++ ".bkp"),
   .removeFile logPath, .openHandler logPath]

/-- The parent-side events of `Session.__rdb_routine` with a dataset
selected: back up the logs, start the child process, then *immediately*
remove `<log_path>.bkp` and reset `last_save` — there is no join on the
child before the removal. -/
def rdb_routine_parent_trace (logPath : String) : List FsEvent :=
  backup_logs_trace logPath ++ [.spawnChild] ++
    [.removeFile (logPath ++ ".bkp"), .setLastSave]

/-- `Interleaves xs ys zs`: `zs` is an order-preserving interleaving of
`xs` (the parent events) and `ys` (the concurrently running child's
events). -/
inductive Interleaves {α : Type} : List α → List α → List α → Prop
  | nil : Interleaves [] [] []
  | left {x : α} {xs ys zs : List α} : Interleaves xs ys zs → Interleaves (x :: xs) ys (x :: zs)
  | right {y : α} {xs ys zs : List α} : Interleaves xs ys zs → Interleaves xs (y :: ys) (y :: zs)

/-! ### Specification-side definitions

These two definitions transcribe the *claims*, not the source; they
exist to be compared against the embedded code. -/

/-- The expiry computation exactly as claim C7 words it: `-KEEPTTL` on a
live key inherits, otherwise a *present* `-EX`/`-PX` sets `now + s`
(resp. `now + ms/1000`), otherwise the expiry is cleared. -/
def expiryPerClaim (args : Database.SetArgs) (wasLive : Bool) (prevTimeout : Option Rat)
    (now : Rat) : Option Rat :=
  if args.KEEPTTL && wasLive then prevTimeout
  else if args.EX.isSome then some (now + ((args.EX.getD 0 : Int) : Rat))
  else if args.PX.isSome then some (now + ((args.PX.getD 0 : Int) : Rat) / 1000)
  else none

/-- The expiry computation amended to what the code does: a present but
*zero* `-EX`/`-PX` falls through to the cleared case (Python truthiness
of `args.EX` / `args.PX`). -/
def expiryAmended (args : Database.SetArgs) (wasLive : Bool) (prevTimeout : Option Rat)
    (now : Rat) : Option Rat :=
  if args.KEEPTTL && wasLive then prevTimeout
  else if truthyOptInt args.EX then some (now + ((args.EX.getD 0 : Int) : Rat))
  else if truthyOptInt args.PX then some (now + ((args.PX.getD 0 : Int) : Rat) / 1000)
  else none

/-- The score map after a `-INCR` application, as claim C9 words it:
each pair's delta is added to the member's score, absent members are
inserted at the delta. -/
def incrSpecMap (sm : List (String × Rat)) (pairs : List (Rat × String)) :
    List (String × Rat) :=
  pairs.foldl
    (fun acc p =>
      match dlookup acc p.2 with
      | some old => dinsert acc p.2 (old + p.1)
      | none => dinsert acc p.2 p.1)
    sm

/-! ## Theorems -/

/-! ### Helper lemmas -/

theorem interleaves_nil_left {α : Type} (ys : List α) : Interleaves [] ys ys := by
  induction ys with
  | nil => exact .nil
  | cons y ys ih => exact .right ih

theorem interleaves_append {α : Type} (xs ys : List α) : Interleaves xs ys (xs ++ ys) := by
  induction xs with
  | nil => simpa using interleaves_nil_left ys
  | cons x xs ih => exact .left ih

theorem dlookup_dinsert {β : Type} (l : List (String × β)) (k : String) (v : β) :
    dlookup (dinsert l k v) k = some v := by
  induction l with
  | nil => simp [dinsert, dlookup]
  | cons p rest ih =>
    by_cases h : p.1 = k
    · simp [dinsert, dlookup, h]
    · simp [dinsert, dlookup, h, ih]

theorem zsetAt_dinsert (data : List (String × Cell)) (k : String) (z : MySortedSet)
    (t : Option Rat) :
    DB.zsetAt ⟨dinsert data k ⟨Val.zset z, t⟩⟩ k = some z := by
  simp [DB.zsetAt, dlookup_dinsert]

theorem pySlice_zero_negone {α : Type} (l : List α) :
    pySlice l 0 (-1) = l.take (l.length - 1) := by
  have h0 : pyIdx l.length 0 = 0 := by simp [pyIdx]
  have h1 : pyIdx l.length (-1) = l.length - 1 := by
    simp only [pyIdx]
    norm_num
    omega
  simp [pySlice, h0, h1]

/-! ### Claim theorems -/

/-- C1: against the claim that every state-changing command appends
exactly one log line (and that the on-disk log is a prefix of the
commands that actually mutated the state), the code shows two failures
at concrete inputs: a `ZADD` on a fresh key mutates the map yet appends
*zero* log lines (`Database.zadd` contains no logging call), while a
`DEL` of an absent key appends one `DEL` line yet mutates nothing (the
line is logged before the `KeyError` is swallowed). -/
theorem c1_zadd_unlogged_and_absent_del_logged :
    (Database.zadd DB.mtDB 0 "z" ⟨false, false, false, false, [(1, "a")]⟩).log = [] ∧
    (Database.zadd DB.mtDB 0 "z" ⟨false, false, false, false, [(1, "a")]⟩).db.zsetAt "z"
      = some ⟨[("a", 1)], ⟨["a"], [(1, "a")]⟩⟩ ∧
    (Database.delete DB.mtDB "nokey").log = ["DEL nokey"] ∧
    (Database.delete DB.mtDB "nokey").db = DB.mtDB := by
  decide

/-- C2: the parent side of the snapshot routine removes the sealed
backup log immediately after `Process.start()`, with no join; hence
there is a legal interleaving of the parent and worker event traces in
which `<name>.log.bkp` is deleted strictly before the worker writes the
snapshot into `<name>.rdb` — refuting the claim that the deletion
happens only after the worker has durably completed. -/
theorem c2_bkp_removed_before_snapshot_write :
    ∃ t : List FsEvent,
      Interleaves (rdb_routine_parent_trace "a.log") (rdb_serialize_trace "a.rdb") t ∧
      ∃ l1 l2 l3 : List FsEvent,
        t = l1 ++ FsEvent.removeFile "a.log.bkp" ::
              (l2 ++ FsEvent.copyFile "a.rdb.new" "a.rdb" :: l3) := by
  refine ⟨rdb_routine_parent_trace "a.log" ++ rdb_serialize_trace "a.rdb",
    interleaves_append _ _,
    [.closeHandler, .copyFile "a.log" "a.log.bkp", .removeFile "a.log",
     .openHandler "a.log", .spawnChild],
    [.setLastSave, .acquireLock, .writeFile "a.rdb.new"],
    [.removeFile "a.rdb.new", .releaseLock], ?_⟩
  decide

/-- C3: the log line a plain `SET x hello` writes carries the computed
timeout as a trailing third field (`SET x hello None`), which the `SET`
parser rejects as a surplus positional; the replay step of
`Session.restore` therefore silently skips it, refuting the lossless
round-trip. -/
theorem c3_set_log_line_does_not_reparse :
    (Database.set DB.mtDB 5 "x" "hello" ⟨none, none, false, false, false⟩).log
      = ["SET x hello None"] ∧
    (Database.set DB.mtDB 5 "x" "hello" ⟨none, none, false, false, false⟩).reply
      = .pyStr "OK" ∧
    restore_line (log_line "2022-10-14 10:00:00,123" "mydb" "SET x hello None")
      = .rejected none := by
  decide

/-- C4: re-scoring an existing member corrupts the iteration order: the
sorted set is keyed by the *mutable* score map, so after the score of
`a` is rewritten the removal from the key list misses the stale entry
(`ValueError`, swallowed) and the member is re-added at its new score —
the sequence becomes `[a, b, c, d, e, a]` with `a` both at the front
(stale, score 10 ahead of score 2) and duplicated at the back, which is
not ordered by (score ascending, member ascending). -/
theorem c4_rescoring_corrupts_order :
    ((MySortedSet.update
        (MySortedSet.update MySortedSet.mtZSet
          [(1, "a"), (2, "b"), (3, "c"), (4, "d"), (5, "e")] false).1
        [(10, "a")] false).1.memberSeq
      = ["a", "b", "c", "d", "e", "a"]) ∧
    dlookup (MySortedSet.update
        (MySortedSet.update MySortedSet.mtZSet
          [(1, "a"), (2, "b"), (3, "c"), (4, "d"), (5, "e")] false).1
        [(10, "a")] false).1.scoremap "a" = some 10 ∧
    orderedByScoreMember
      (MySortedSet.update
        (MySortedSet.update MySortedSet.mtZSet
          [(1, "a"), (2, "b"), (3, "c"), (4, "d"), (5, "e")] false).1
        [(10, "a")] false).1.scoremap
      (MySortedSet.update
        (MySortedSet.update MySortedSet.mtZSet
          [(1, "a"), (2, "b"), (3, "c"), (4, "d"), (5, "e")] false).1
        [(10, "a")] false).1.memberSeq = false := by
  decide

/-- C5: `rdb_serialize` writes the temporary `<name>.rdb.new` and then
`shutil.copy`s it over the live `<name>.rdb` (a byte-wise copy into the
target, during which a reader can observe a partial file) before
removing the temp file; its event trace contains no rename at all. -/
theorem c5_snapshot_copied_not_renamed :
    rdb_serialize_trace "a.rdb" =
      [.acquireLock, .writeFile "a.rdb.new", .copyFile "a.rdb.new" "a.rdb",
       .removeFile "a.rdb.new", .releaseLock] ∧
    (rdb_serialize_trace "a.rdb").all (fun e => !e.isRename) = true := by
  decide

/-- C6: `Database.get` performs no variant check: on a live key holding
a sorted set it returns the raw `MySortedSet` object rather than the
typed error the claim (and the parser's own description string)
promises. -/
theorem c6_get_returns_raw_zset_not_typed_error :
    (Database.get (Database.zadd DB.mtDB 0 "z"
        ⟨false, false, false, false, [(1, "a")]⟩).db 0 "z").reply
      = .pyVal (Val.zset ⟨[("a", 1)], ⟨["a"], [(1, "a")]⟩⟩) ∧
    (Database.get (Database.zadd DB.mtDB 0 "z"
        ⟨false, false, false, false, [(1, "a")]⟩).db 0 "z").reply.isTypedError = false := by
  decide

/-- C8: the zmq server loop replies with nothing at all on a rejected
command — an unrecognized command (`FOO`) and a parse error (`GET` with
no key) both take the `continue` branch, so no reply string reaches the
client (the error text is only printed to the server's stdout); the
engine-side `validate_cmd` does recover the error locally as a message
value, as the last conjunct shows. -/
theorem c8_command_errors_produce_no_reply :
    serve_request_step (fun _ => Reply.pyNone) false "FOO" = none ∧
    serve_request_step (fun _ => Reply.pyNone) true "GET" = none ∧
    CommandParser.parse "GET" [] = none ∧
    validate_cmd true "FOO" = .rejected (some unknownMsgEngine) := by
  decide

/-- C7, counterexample: `SET k v -EX 0` stores a cell with *no* expiry
(Python `if args.EX:` is false at 0), whereas the claim computes the
absolute expiry `now + 0 = now` whenever `-EX` is present. -/
theorem c7_ex_zero_clears_expiry :
    (Database.set DB.mtDB 5 "k" "v" ⟨some 0, none, false, false, false⟩).db.data
      = [("k", ⟨Val.str "v", none⟩)] ∧
    expiryPerClaim ⟨some 0, none, false, false, false⟩ false none 5 = some 5 ∧
    (none : Option Rat) ≠ some (5 : Rat) := by
  refine ⟨by decide, ?_, by decide⟩
  simp [expiryPerClaim]

/-- C7, amended: every successful `SET` (reply `OK`) stores a fresh
string cell whose expiry is: the inherited previous expiry under
`-KEEPTTL` on a live key; else `now + s` for a *nonzero* `-EX s` (resp.
`now + ms/1000` for a nonzero `-PX ms`); else no expiry — a present but
zero `-EX`/`-PX` clears the expiry like an absent one. -/
theorem c7_set_expiry_amended (db : DB) (now : Rat) (key v : String) (args : Database.SetArgs)
    (h : (Database.set db now key v args).reply = .pyStr "OK") :
    dlookup (Database.set db now key v args).db.data key
      = some ⟨Val.str v, expiryAmended args (Database.check_active db now key).2.1
          ((dlookup (Database.check_active db now key).1.data key).bind
            (fun c => c.timeout)) now⟩ := by
  simp only [Database.set] at h ⊢
  cases h1 : (args.NX && (Database.check_active db now key).2.1) with
  | true => simp [h1] at h
  | false =>
    cases h2 : (args.XX && !(Database.check_active db now key).2.1) with
    | true => simp [h1, h2] at h
    | false =>
      simp only [h1, h2, Bool.false_eq_true, if_false]
      rw [dlookup_dinsert]
      simp only [expiryAmended]
      cases h3 : (args.KEEPTTL && (Database.check_active db now key).2.1) with
      | true => simp [h3]
      | false =>
        simp only [h3, Bool.false_eq_true, if_false]
        cases h4 : truthyOptInt args.EX with
        | true => simp [h4]
        | false =>
          simp only [h4, Bool.false_eq_true, if_false]
          cases h5 : truthyOptInt args.PX with
          | true =>
            simp only [h5, if_true]
            congr 1
            congr 1
            ring_nf
          | false => simp [h5]

/-- C7, witness: `SET k v -EX 3` at `now = 5` on an empty dataset stores
the amended expiry (here `some 8`). -/
theorem c7_set_expiry_amended_witness :
    dlookup (Database.set DB.mtDB 5 "k" "v" ⟨some 3, none, false, false, false⟩).db.data "k"
      = some ⟨Val.str "v",
          expiryAmended ⟨some 3, none, false, false, false⟩
            (Database.check_active DB.mtDB 5 "k").2.1
            ((dlookup (Database.check_active DB.mtDB 5 "k").1.data "k").bind
              (fun c => c.timeout)) 5⟩ :=
  c7_set_expiry_amended DB.mtDB 5 "k" "v" ⟨some 3, none, false, false, false⟩ (by decide)

/-- C9, counterexample: on a key that is *not* live, `ZADD z -INCR 5 a
7 b` is accepted by the parser but is dispatched to `update`, not
`incr_update`: the reply is the added-count `2` (an int), not the new
score `7` of the last pair's member. -/
theorem c9_incr_ignored_on_fresh_key :
    CommandParser.parse "ZADD" ["z", "-INCR", "5", "a", "7", "b"]
      = some (.zadd "z" ⟨false, false, false, true, [(5, "a"), (7, "b")]⟩) ∧
    (Database.zadd DB.mtDB 0 "z" ⟨false, false, false, true, [(5, "a"), (7, "b")]⟩).reply
      = .pyInt 2 ∧
    ((Database.zadd DB.mtDB 0 "z"
        ⟨false, false, false, true, [(5, "a"), (7, "b")]⟩).db.zsetAt "z").map
      (fun w => dlookup w.scoremap "b") = some (some 7) ∧
    Reply.pyInt 2 ≠ Reply.pyRat 7 := by
  decide

/-- C9, amended: the parser accepts `-INCR` together with more than one
pair (no pair-count check is performed, despite the help text), and when
such a command is dispatched against a key that *is* live with a sorted
set (and not gated by `-NX`), every pair's delta is applied through
`incr_update` (absent members inserted at the delta) and the reply is
the new score of the last pair's member only. -/
theorem c9_zadd_incr_applies_all_pairs (db : DB) (now : Rat) (key : String) (z : MySortedSet)
    (t : Option Rat) (args : Database.ZaddArgs)
    (hincr : args.INCR = true) (hnx : args.NX = false) (hne : args.score_member ≠ [])
    (hactive : (Database.check_active db now key).2.1 = true)
    (hcell : dlookup (Database.check_active db now key).1.data key = some ⟨Val.zset z, t⟩) :
    (Database.zadd db now key args).reply
      = .pyRat (((args.score_member.map (fun p => p.2)).getLast?.bind
          (dlookup (incrSpecMap z.scoremap args.score_member))).getD 0) ∧
    ((Database.zadd db now key args).db.zsetAt key).map (fun w => w.scoremap)
      = some (incrSpecMap z.scoremap args.score_member) ∧
    CommandParser.parse "ZADD" ["k", "-INCR", "1", "x", "2", "y"]
      = some (.zadd "k" ⟨false, false, false, true, [(1, "x"), (2, "y")]⟩) := by
  have hz : (Database.check_active db now key).1.zsetAt key = some z := by
    simp [DB.zsetAt, hcell]
  have hne2 : [] ≠ args.score_member := fun he => hne he.symm
  clear hne2
  simp only [Database.zadd, hactive, hz, hnx, hcell, hincr, Option.isNone_some,
    Bool.and_false, Bool.false_and, Bool.and_true, Bool.true_and, Bool.not_true,
    Bool.false_eq_true, if_false, if_true]
  refine ⟨rfl, ?_, by decide⟩
  rw [zsetAt_dinsert]
  rfl

/-- C9, witness: a live sorted set `{a ↦ 1}` receiving
`ZADD z -INCR 2 a 3 c` — both deltas land in the score map, the reply is
the last member's new score, and the parser accepts the multi-pair
`-INCR` form. -/
theorem c9_zadd_incr_applies_all_pairs_witness :
    (Database.zadd ⟨[("z", ⟨Val.zset ⟨[("a", 1)], ⟨["a"], [(1, "a")]⟩⟩, none⟩)]⟩ 0 "z"
        ⟨false, false, false, true, [(2, "a"), (3, "c")]⟩).reply
      = .pyRat ((([((2 : Rat), "a"), (3, "c")].map (fun p => p.2)).getLast?.bind
          (dlookup (incrSpecMap [("a", 1)] [(2, "a"), (3, "c")]))).getD 0) ∧
    ((Database.zadd ⟨[("z", ⟨Val.zset ⟨[("a", 1)], ⟨["a"], [(1, "a")]⟩⟩, none⟩)]⟩ 0 "z"
        ⟨false, false, false, true, [(2, "a"), (3, "c")]⟩).db.zsetAt "z").map
      (fun w => w.scoremap)
      = some (incrSpecMap [("a", 1)] [(2, "a"), (3, "c")]) ∧
    CommandParser.parse "ZADD" ["k", "-INCR", "1", "x", "2", "y"]
      = some (.zadd "k" ⟨false, false, false, true, [(1, "x"), (2, "y")]⟩) := by
  have h := c9_zadd_incr_applies_all_pairs
    ⟨[("z", ⟨Val.zset ⟨[("a", 1)], ⟨["a"], [(1, "a")]⟩⟩, none⟩)]⟩ 0 "z"
    ⟨[("a", 1)], ⟨["a"], [(1, "a")]⟩⟩ none
    ⟨false, false, false, true, [(2, "a"), (3, "c")]⟩
    rfl rfl (by decide) (by decide) (by decide)
  exact ⟨h.1.trans (by decide), h.2.1, h.2.2⟩

/-- C10: for a live sorted-set key, `ZRANGE` returns exactly the Python
slice `members[start:stop]` of the member sequence (negative indices
counting from the end); `l[0:-1]` is the first `n - 1` elements; and the
parser accepts negative integers as `start`/`stop` (argparse treats a
negative-number-shaped token as a positional because no option string of
the `ZRANGE` parser looks like a negative number). -/
theorem c10_zrange_python_slice (db : DB) (now : Rat) (key : String) (z : MySortedSet)
    (t : Option Rat) (args : Database.ZrangeArgs)
    (hactive : (Database.check_active db now key).2.1 = true)
    (hcell : dlookup (Database.check_active db now key).1.data key = some ⟨Val.zset z, t⟩)
    (hws : args.WITHSCORES = false) :
    (Database.zrange db now key args).reply
      = .pyList (pySlice z.memberSeq args.start args.stop) ∧
    (∀ l : List String, pySlice l 0 (-1) = l.take (l.length - 1)) ∧
    CommandParser.parse "ZRANGE" ["k", "0", "-1"]
      = some (.zrange "k" ⟨0, -1, false⟩) := by
  have hz : (Database.check_active db now key).1.zsetAt key = some z := by
    simp [DB.zsetAt, hcell]
  refine ⟨?_, pySlice_zero_negone, by decide⟩
  simp [Database.zrange, hactive, hz, MySortedSet.range, hws]

/-- C10, witness: `ZRANGE z 0 -1` on a live two-member sorted set
returns the first member only (Python slice semantics). -/
theorem c10_zrange_python_slice_witness :
    (Database.zrange ⟨[("z", ⟨Val.zset ⟨[("a", 1), ("b", 2)],
        ⟨["a", "b"], [(1, "a"), (2, "b")]⟩⟩, none⟩)]⟩ 0 "z" ⟨0, -1, false⟩).reply
      = .pyList ["a"] := by
  have h := c10_zrange_python_slice
    ⟨[("z", ⟨Val.zset ⟨[("a", 1), ("b", 2)], ⟨["a", "b"], [(1, "a"), (2, "b")]⟩⟩, none⟩)]⟩
    0 "z" ⟨[("a", 1), ("b", 2)], ⟨["a", "b"], [(1, "a"), (2, "b")]⟩⟩ none ⟨0, -1, false⟩
    (by decide) (by decide) rfl
  exact h.1.trans (by decide)

end KeyvalDB
